import Mathlib

/-!
Verification of the coordination core of the `toastmasters-timer` web app.

The development shallowly embeds the TypeScript sources:
* `src/lib/types.ts` — data model (club state, config, commands, beep schedule);
* `src/lib/timer.ts` — the pure derived-value evaluator (elapsed seconds,
  color zone, beep decision, display color);
* `src/display/main.ts` — the command-queue processor of the authority
  (`processCommand` and the subscription loop in `startSubscriptions`);
* `src/lib/firestore.ts` — the store interface; `updateRoomState` shows the
  field-level-merge write used for partial state updates, and
  `subscribeToCommands` issues the query ordered by `sentAtMs` ascending.

Wall-clock reads (`Date.now()`) are modelled by an explicit `now : Int`
parameter (milliseconds).  JavaScript `Math.floor` division of integers is
`Int.fdiv`.
-/

namespace TMTimer

/-- `ClubStatus` from types.ts: the four-value status union. -/
inductive ClubStatus where
  | idle
  | armed
  | running
  | stopped
deriving DecidableEq, Repr

/-- `OvertimeMode` from types.ts. -/
inductive OvertimeMode where
  | none
  | once
  | repeatedly
deriving DecidableEq, Repr

/-- `ColorZone` from types.ts. -/
inductive ColorZone where
  | neutral
  | green
  | amber
  | red
deriving DecidableEq, Repr

/-- `Preset` from types.ts. -/
structure Preset where
  id : String
  label : String
  lower : Int
  mid : Int
  upper : Int
deriving DecidableEq, Repr

/-- `ClubConfig` from types.ts. -/
structure ClubConfig where
  presets : List Preset
  showTimer : Bool
  overtimeMode : OvertimeMode
deriving DecidableEq, Repr

/-- `ClubState` from types.ts.  `beepCount` is a count of fired beeps
(non-negative), modelled as `Nat`. -/
structure ClubState where
  status : ClubStatus
  presetId : Option String
  lowerSec : Int
  midSec : Int
  upperSec : Int
  startedAtMs : Option Int
  beeped : Bool
  beepCount : Nat
  seq : Int
deriving DecidableEq, Repr

/-- The full club document (types.ts `Club`); the informational `updatedAt`
timestamp is not part of any claim and is omitted. -/
structure Club where
  config : ClubConfig
  state : ClubState
deriving DecidableEq, Repr

/-- `INITIAL_CLUB_STATE` from types.ts. -/
def INITIAL_CLUB_STATE : ClubState :=
  { status := ClubStatus.idle
    presetId := Option.none
    lowerSec := 0
    midSec := 0
    upperSec := 0
    startedAtMs := Option.none
    beeped := false
    beepCount := 0
    seq := 0 }

/-- `DEFAULT_PRESETS` from types.ts. -/
def DEFAULT_PRESETS : List Preset :=
  [ { id := "p_1_2", label := "1-2 min", lower := 60, mid := 90, upper := 120 }
  , { id := "p_2_3", label := "2-3 min", lower := 120, mid := 150, upper := 180 }
  , { id := "p_3_5", label := "3-5 min", lower := 180, mid := 240, upper := 300 }
  , { id := "p_4_6", label := "4-6 min", lower := 240, mid := 300, upper := 360 }
  , { id := "p_5_7", label := "5-7 min", lower := 300, mid := 360, upper := 420 } ]

/-- `DEFAULT_CONFIG` from types.ts. -/
def DEFAULT_CONFIG : ClubConfig :=
  { presets := DEFAULT_PRESETS, showTimer := true, overtimeMode := OvertimeMode.once }

/-- `OVERTIME_BEEP_SCHEDULE` from types.ts: seconds past the upper threshold
at which the repeated beeps fire. -/
def OVERTIME_BEEP_SCHEDULE : List Int := [30, 60, 120, 180]

/-- `getElapsedSeconds` from timer.ts:
`Math.floor((Date.now() - startedAtMs) / 1000)`, and `0` when `startedAtMs`
is null.  `now` is the value of `Date.now()` at the evaluation instant. -/
def getElapsedSeconds (startedAtMs : Option Int) (now : Int) : Int :=
  match startedAtMs with
  | Option.none => 0
  | Option.some t => Int.fdiv (now - t) 1000

/-- `getColorZone` from timer.ts. -/
def getColorZone (elapsed lowerSec midSec upperSec : Int) : ColorZone :=
  if elapsed < lowerSec then ColorZone.neutral
  else if elapsed < midSec then ColorZone.green
  else if elapsed < upperSec then ColorZone.amber
  else ColorZone.red

/-- `shouldBeep` from timer.ts (the club version, with `beepCount` and
`overtimeMode`). -/
def shouldBeep (elapsed upperSec : Int) (beeped : Bool) (beepCount : Nat)
    (overtimeMode : OvertimeMode) : Bool :=
  if overtimeMode = OvertimeMode.none then
    false
  else
    let overtime := elapsed - upperSec
    if overtime < 30 then
      false
    else if overtimeMode = OvertimeMode.once then
      !beeped
    else if OVERTIME_BEEP_SCHEDULE.length ≤ beepCount then
      false
    else
      let nextBeepAt := OVERTIME_BEEP_SCHEDULE.getD beepCount 0
      decide (nextBeepAt ≤ overtime)

/-- `isOvertime` from timer.ts: `elapsed >= upperSec`. -/
def isOvertime (elapsed upperSec : Int) : Bool :=
  decide (upperSec ≤ elapsed)

/-- The text of a `ColorZone` as interpolated into `color-${zone}`. -/
def zoneName : ColorZone → String
  | ColorZone.neutral => "neutral"
  | ColorZone.green => "green"
  | ColorZone.amber => "amber"
  | ColorZone.red => "red"

/-- `getDisplayColorClass` from timer.ts.  `now` is the value of `Date.now()`
at the instant the display evaluates; the stopped branch recomputes the
elapsed time from `startedAtMs` and that current clock. -/
def getDisplayColorClass (state : ClubState) (now : Int) : String :=
  if state.status = ClubStatus.idle ∨ state.status = ClubStatus.armed then
    "color-neutral"
  else if state.status = ClubStatus.stopped then
    let elapsed := getElapsedSeconds state.startedAtMs now
    let zone := getColorZone elapsed state.lowerSec state.midSec state.upperSec
    "color-" ++ zoneName zone
  else if state.status = ClubStatus.running then
    let elapsed := getElapsedSeconds state.startedAtMs now
    let zone := getColorZone elapsed state.lowerSec state.midSec state.upperSec
    "color-" ++ zoneName zone
  else
    "color-neutral"

/-- `SetPresetPayload` from types.ts. -/
structure SetPresetPayload where
  presetId : String
  lowerSec : Int
  midSec : Int
  upperSec : Int
deriving DecidableEq, Repr

/-- `UpdateConfigPayload` from types.ts: a partial config patch (each field
optional). -/
structure UpdateConfigPayload where
  showTimer : Option Bool
  overtimeMode : Option OvertimeMode
  presets : Option (List Preset)
deriving DecidableEq, Repr

/-- The `type` tag of a command together with the payload shape that tag declares
(types.ts `CommandType` with the payload union keyed by it). -/
inductive CommandBody where
  | SET_PRESET (payload : SetPresetPayload)
  | START
  | STOP
  | RESET
  | UPDATE_CONFIG (payload : UpdateConfigPayload)
deriving DecidableEq, Repr

/-- `CommandWithId` from types.ts: the command document plus its store
identifier. -/
structure CommandWithId where
  id : String
  body : CommandBody
  sentAtMs : Int
  clientId : String
deriving DecidableEq, Repr

/-- Modelled from the spec: `updateClubConfig` is referenced by
display/main.ts but its definition is not among the sources; per the spec it
is `patchConfig` — a field-level merge that overwrites exactly the fields
present in the partial patch (the same merge `updateRoomState` in
firestore.ts performs on `state`). -/
def applyConfigPatch (config : ClubConfig) (payload : UpdateConfigPayload) : ClubConfig :=
  { presets := payload.presets.getD config.presets
    showTimer := payload.showTimer.getD config.showTimer
    overtimeMode := payload.overtimeMode.getD config.overtimeMode }

/-- `processCommand` from display/main.ts, restricted to its effect on the
club document.  `updateClubState` performs a field-level merge (the pattern
shown by `updateRoomState` in firestore.ts), so fields not written — in
particular `seq`, and `startedAtMs` in the STOP branch — keep their values.
`now` is `Date.now()` at processing time (used by the START branch). -/
def processCommand (club : Club) (cmd : CommandBody) (now : Int) : Club :=
  match cmd with
  | CommandBody.SET_PRESET payload =>
      { club with state :=
        { club.state with
            status := ClubStatus.armed
            presetId := Option.some payload.presetId
            lowerSec := payload.lowerSec
            midSec := payload.midSec
            upperSec := payload.upperSec
            startedAtMs := Option.none
            beeped := false
            beepCount := 0 } }
  | CommandBody.START =>
      if club.state.status = ClubStatus.armed ∨ club.state.status = ClubStatus.stopped then
        { club with state :=
          { club.state with
              status := ClubStatus.running
              startedAtMs := Option.some now
              beeped := false
              beepCount := 0 } }
      else
        club
  | CommandBody.STOP =>
      if club.state.status = ClubStatus.running then
        { club with state := { club.state with status := ClubStatus.stopped } }
      else
        club
  | CommandBody.RESET =>
      { club with state :=
        { club.state with
            status := ClubStatus.idle
            presetId := Option.none
            lowerSec := 0
            midSec := 0
            upperSec := 0
            startedAtMs := Option.none
            beeped := false
            beepCount := 0 } }
  | CommandBody.UPDATE_CONFIG payload =>
      { club with config := applyConfigPatch club.config payload }

/-- The local processing context of the authority: the mirrored club document, the
process-lifetime `processedCommandIds` set (display/main.ts line 49, modelled
as a list) and the pending command sub-collection. -/
structure ProcessorState where
  club : Club
  processed : List String
  pending : List CommandWithId
deriving DecidableEq, Repr

/-- One iteration of the command loop in `startSubscriptions`
(display/main.ts): skip a command whose id is already in
`processedCommandIds`; otherwise apply `processCommand`, delete the command
from the queue, and record its id. -/
def deliverOne (ps : ProcessorState) (c : CommandWithId) (now : Int) : ProcessorState :=
  if c.id ∈ ps.processed then
    ps
  else
    { club := processCommand ps.club c.body now
      processed := ps.processed ++ [c.id]
      pending := ps.pending.filter (fun d => d.id ≠ c.id) }

/-- The total order in which the authority receives commands: ascending
`sentAtMs`, with equal timestamps tied by the document identifier.  The
ascending `sentAtMs` key is requested by the query in `subscribeToCommands`
(firestore.ts line 132, `orderBy sentAtMs asc`); the store appends the
document id as the final sort key, making the order stable. -/
def cmdLe (a b : CommandWithId) : Prop :=
  a.sentAtMs < b.sentAtMs ∨ (a.sentAtMs = b.sentAtMs ∧ a.id ≤ b.id)

instance : DecidableRel cmdLe := fun a b => by
  unfold cmdLe
  infer_instance

instance : IsTotal CommandWithId cmdLe := by
  constructor
  intro a b
  unfold cmdLe
  rcases lt_trichotomy a.sentAtMs b.sentAtMs with h | h | h
  · exact Or.inl (Or.inl h)
  · rcases le_total a.id b.id with hid | hid
    · exact Or.inl (Or.inr ⟨h, hid⟩)
    · exact Or.inr (Or.inr ⟨h.symm, hid⟩)
  · exact Or.inr (Or.inl h)

instance : IsTrans CommandWithId cmdLe := by
  constructor
  intro a b c hab hbc
  unfold cmdLe at *
  rcases hab with hab | ⟨hab, haid⟩
  · rcases hbc with hbc | ⟨hbc, _⟩
    · exact Or.inl (hab.trans hbc)
    · exact Or.inl (hbc ▸ hab)
  · rcases hbc with hbc | ⟨hbc, hbid⟩
    · exact Or.inl (hab ▸ hbc)
    · exact Or.inr ⟨hab.trans hbc, le_trans haid hbid⟩

/-- The delivered order of a command snapshot: the pending set sorted by
`cmdLe` (the `orderBy` of `subscribeToCommands` plus the stable
document-id tiebreak of the store). -/
def sortCommands (cmds : List CommandWithId) : List CommandWithId :=
  List.insertionSort cmdLe cmds

/-- One snapshot delivery to the authority: `subscribeToCommands` hands the
sorted pending set to the loop of `startSubscriptions`, which folds
`deliverOne` over it in that order. -/
def deliverBatch (ps : ProcessorState) (cmds : List CommandWithId) (now : Int) : ProcessorState :=
  (sortCommands cmds).foldl (fun a c => deliverOne a c now) ps

/-- Club documents reachable from a freshly created club (state
`INITIAL_CLUB_STATE`, any configuration) by the authority applying commands. -/
inductive Reachable : Club → Prop where
  | init (config : ClubConfig) : Reachable { config := config, state := INITIAL_CLUB_STATE }
  | step {club : Club} (cmd : CommandBody) (now : Int) :
      Reachable club → Reachable (processCommand club cmd now)

/-- Along every reachable club document, `seq` keeps its initial value (no
command branch ever writes it), and an idle status pins the whole state to
`INITIAL_CLUB_STATE`: the only transitions producing `idle` are RESET, which
writes exactly the initial values of every other field. -/
theorem reachable_idle_initial {club : Club} (h : Reachable club) :
    club.state.seq = 0 ∧
      (club.state.status = ClubStatus.idle → club.state = INITIAL_CLUB_STATE) := by
  induction h with
  | init config =>
      exact ⟨rfl, fun _ => rfl⟩
  | step cmd now _ ih =>
      rcases ih with ⟨hseq, hidle⟩
      cases cmd with
      | SET_PRESET payload =>
          refine ⟨hseq, fun hst => ?_⟩
          simp [processCommand] at hst
      | START =>
          simp only [processCommand]
          split
          · exact ⟨hseq, by intro hst; simp_all⟩
          · exact ⟨hseq, hidle⟩
      | STOP =>
          simp only [processCommand]
          split
          · exact ⟨hseq, by intro hst; simp_all⟩
          · exact ⟨hseq, hidle⟩
      | RESET =>
          refine ⟨hseq, fun _ => ?_⟩
          simp [processCommand, INITIAL_CLUB_STATE, hseq]
      | UPDATE_CONFIG payload =>
          exact ⟨hseq, hidle⟩

/-- A JavaScript runtime value, for modelling payloads that do not have the
shape their command type declares.  `undefinedV` is the result of reading an
absent property. -/
inductive JsValue where
  | num (n : Int)
  | str (s : String)
  | boolV (b : Bool)
  | nullV
  | undefinedV
deriving DecidableEq, Repr

/-- Property read on a dynamic payload object: the stored value, or
`undefined` when the property is absent. -/
def jsField (payload : List (String × JsValue)) (key : String) : JsValue :=
  match payload.find? (fun kv => kv.fst == key) with
  | Option.some kv => kv.snd
  | Option.none => JsValue.undefinedV

/-- The club state as stored by the document store: every field holds
whatever runtime value was last written to it. -/
structure DynClubState where
  status : JsValue
  presetId : JsValue
  lowerSec : JsValue
  midSec : JsValue
  upperSec : JsValue
  startedAtMs : JsValue
  beeped : JsValue
  beepCount : JsValue
  seq : JsValue
deriving DecidableEq, Repr

/-- Dynamic image of `INITIAL_CLUB_STATE`. -/
def initialDynState : DynClubState :=
  { status := JsValue.str "idle"
    presetId := JsValue.nullV
    lowerSec := JsValue.num 0
    midSec := JsValue.num 0
    upperSec := JsValue.num 0
    startedAtMs := JsValue.nullV
    beeped := JsValue.boolV false
    beepCount := JsValue.num 0
    seq := JsValue.num 0 }

/-- The SET_PRESET branch of `processCommand` (display/main.ts) under
JavaScript runtime semantics: `command.payload as SetPresetPayload` is a
compile-time cast with no runtime check, property reads return whatever the
payload object holds (or `undefined` when absent), and the field-merge write
stores those values verbatim into the state fields it names. -/
def processSetPresetDyn (payload : List (String × JsValue)) (st : DynClubState) : DynClubState :=
  { st with
      status := JsValue.str "armed"
      presetId := jsField payload "presetId"
      lowerSec := jsField payload "lowerSec"
      midSec := jsField payload "midSec"
      upperSec := jsField payload "upperSec"
      startedAtMs := JsValue.nullV
      beeped := JsValue.boolV false
      beepCount := JsValue.num 0 }

/-- A payload of the wrong shape for SET_PRESET: `presetId` is a number
instead of a string, and the three thresholds are a string, a boolean and
null instead of numbers. -/
def malformedSetPreset : List (String × JsValue) :=
  [ ("presetId", JsValue.num 7)
  , ("lowerSec", JsValue.str "abc")
  , ("midSec", JsValue.boolV true)
  , ("upperSec", JsValue.nullV) ]

/-- C5: for ordered thresholds, `getColorZone` returns `neutral` iff
`elapsed < lower`, `green` iff `lower ≤ elapsed < mid`, `amber` iff
`mid ≤ elapsed < upper` and `red` iff `elapsed ≥ upper`; with thresholds
(60, 90, 120) the boundary values 59, 60, 89, 90, 119, 120 land in
neutral, green, green, amber, amber, red respectively. -/
theorem getColorZone_zones :
    (∀ e l m u : Int, l ≤ m → m ≤ u →
      ((getColorZone e l m u = ColorZone.neutral ↔ e < l) ∧
       (getColorZone e l m u = ColorZone.green ↔ l ≤ e ∧ e < m) ∧
       (getColorZone e l m u = ColorZone.amber ↔ m ≤ e ∧ e < u) ∧
       (getColorZone e l m u = ColorZone.red ↔ u ≤ e))) ∧
    (getColorZone 59 60 90 120 = ColorZone.neutral ∧
     getColorZone 60 60 90 120 = ColorZone.green ∧
     getColorZone 89 60 90 120 = ColorZone.green ∧
     getColorZone 90 60 90 120 = ColorZone.amber ∧
     getColorZone 119 60 90 120 = ColorZone.amber ∧
     getColorZone 120 60 90 120 = ColorZone.red) := by
  constructor
  · intro e l m u hlm hmu
    unfold getColorZone
    split_ifs with h1 h2 h3 <;>
      refine ⟨?_, ?_, ?_, ?_⟩ <;> simp <;> omega
  · refine ⟨by decide, by decide, by decide, by decide, by decide, by decide⟩

/-- Witness for C5: the general zone characterisation applied at a concrete
input with ordered thresholds. -/
theorem getColorZone_zones_witness : getColorZone 95 60 90 120 = ColorZone.amber :=
  (getColorZone_zones.1 95 60 90 120 (by decide) (by decide)).2.2.1.mpr (by decide)

/-- C10: for ordered thresholds, `isOvertime` agrees exactly with the red
color zone — the overtime indicator and the red display color switch on
together. -/
theorem isOvertime_iff_red :
    ∀ e l m u : Int, l ≤ m → m ≤ u →
      (isOvertime e u = true ↔ getColorZone e l m u = ColorZone.red) := by
  intro e l m u hlm hmu
  unfold isOvertime getColorZone
  split_ifs <;> simp <;> omega

/-- Witness for C10: at elapsed 200 with thresholds (120, 150, 180) the
overtime flag and the red zone are both on. -/
theorem isOvertime_iff_red_witness : isOvertime 200 180 = true :=
  (isOvertime_iff_red 200 120 150 180 (by decide) (by decide)).mpr (by decide)

/-- C6: `shouldBeep` is false in mode `none`; false in every mode during the
fixed 30-second grace period past the upper threshold; and in mode `once`,
past the grace period, it fires iff `beeped` is still false. -/
theorem shouldBeep_none_grace_once :
    (∀ (e u : Int) (b : Bool) (k : Nat),
      shouldBeep e u b k OvertimeMode.none = false) ∧
    (∀ (e u : Int) (b : Bool) (k : Nat) (mode : OvertimeMode),
      e - u < 30 → shouldBeep e u b k mode = false) ∧
    (∀ (e u : Int) (b : Bool) (k : Nat), 30 ≤ e - u →
      (shouldBeep e u b k OvertimeMode.once = true ↔ b = false)) := by
  refine ⟨?_, ?_, ?_⟩
  · intro e u b k
    simp [shouldBeep]
  · intro e u b k mode h
    cases mode <;> simp [shouldBeep, h]
  · intro e u b k h
    have hlt : ¬ (e - u < 30) := by omega
    simp [shouldBeep, hlt]

/-- Witness for C6: during the grace period (elapsed 140, upper 120) no beep
fires in mode `once`; past it (elapsed 150) with `beeped = false` the firing
condition is met. -/
theorem shouldBeep_none_grace_once_witness :
    shouldBeep 140 120 false 0 OvertimeMode.once = false ∧
    shouldBeep 150 120 false 0 OvertimeMode.once = true := by
  refine ⟨shouldBeep_none_grace_once.2.1 140 120 false 0 OvertimeMode.once (by decide), ?_⟩
  exact (shouldBeep_none_grace_once.2.2 150 120 false 0 (by decide)).mpr rfl

/-- C7: in mode `repeatedly`, `shouldBeep` fires iff `beepCount` is below the
schedule length and the overtime has reached the schedule entry indexed by
`beepCount`; with `upperSec = 120` the four firing thresholds are elapsed
150, 180, 240 and 300, and no fifth firing condition exists. -/
theorem shouldBeep_repeatedly_schedule :
    (∀ (e u : Int) (b : Bool) (k : Nat),
      shouldBeep e u b k OvertimeMode.repeatedly = true ↔
        k < OVERTIME_BEEP_SCHEDULE.length ∧ OVERTIME_BEEP_SCHEDULE.getD k 0 ≤ e - u) ∧
    (∀ (e : Int) (b : Bool),
      (shouldBeep e 120 b 0 OvertimeMode.repeatedly = true ↔ 150 ≤ e) ∧
      (shouldBeep e 120 b 1 OvertimeMode.repeatedly = true ↔ 180 ≤ e) ∧
      (shouldBeep e 120 b 2 OvertimeMode.repeatedly = true ↔ 240 ≤ e) ∧
      (shouldBeep e 120 b 3 OvertimeMode.repeatedly = true ↔ 300 ≤ e) ∧
      (∀ k : Nat, shouldBeep e 120 b (k + 4) OvertimeMode.repeatedly = false)) := by
  constructor
  · intro e u b k
    rcases k with _ | _ | _ | _ | k <;>
      simp [shouldBeep, OVERTIME_BEEP_SCHEDULE] <;> omega
  · intro e b
    refine ⟨?_, ?_, ?_, ?_, fun k => ?_⟩ <;>
      simp [shouldBeep, OVERTIME_BEEP_SCHEDULE] <;> omega

/-- A freshly created club document. -/
def freshClub : Club :=
  { config := DEFAULT_CONFIG, state := INITIAL_CLUB_STATE }

/-- A running session that started at wall time 0 with the 1-2 minute
thresholds (60, 90, 120), observed at the instant STOP is processed. -/
def runningAtStop : ClubState :=
  { status := ClubStatus.running
    presetId := Option.some "p_1_2"
    lowerSec := 60
    midSec := 90
    upperSec := 120
    startedAtMs := Option.some 0
    beeped := false
    beepCount := 0
    seq := 0 }

/-- The state stored after STOP is processed on `runningAtStop`: only the
status changes; `startedAtMs` stays set. -/
def stoppedAtStop : ClubState :=
  { runningAtStop with status := ClubStatus.stopped }

/-- C1 (refuted, code bug): STOP at now = 119000 ms freezes nothing.  The
stored stopped state keeps `startedAtMs = 0`, and the stopped branch of
`getDisplayColorClass` recomputes the elapsed time from the CURRENT clock,
so at the stop instant the display shows amber with elapsed 119, while six
seconds later the same stored state yields red with elapsed 125 — the zone
and the elapsed value both move after the stop, contradicting the freeze the
code comment and the spec promise. -/
theorem stopped_display_color_advances :
    (processCommand { config := DEFAULT_CONFIG, state := runningAtStop }
        CommandBody.STOP 119000).state = stoppedAtStop ∧
    getElapsedSeconds stoppedAtStop.startedAtMs 119000 = 119 ∧
    getDisplayColorClass stoppedAtStop 119000 = "color-amber" ∧
    getElapsedSeconds stoppedAtStop.startedAtMs 125000 = 125 ∧
    getDisplayColorClass stoppedAtStop 125000 = "color-red" := by
  refine ⟨by decide, by decide, by decide, by decide, by decide⟩

/-- The 2-3 minute preset payload used in the end-to-end scenario. -/
def presetPayload23 : SetPresetPayload :=
  { presetId := "p_2_3", lowerSec := 120, midSec := 150, upperSec := 180 }

/-- The club after SET_PRESET is applied to a fresh club. -/
def clubArmed : Club :=
  processCommand freshClub (CommandBody.SET_PRESET presetPayload23) 0

/-- The club after the armed club receives START at wall time 1000 ms. -/
def clubRunning : Club :=
  processCommand clubArmed CommandBody.START 1000

/-- Counterexample to C2: `clubRunning` is reachable and has status
`running`; the pair (running, SET_PRESET) is not in the transition table of
§4.2, yet processing SET_PRESET there is not a no-op — the code applies
SET_PRESET unconditionally and the state changes (status becomes armed). -/
theorem set_preset_while_running_changes_state :
    Reachable clubRunning ∧
    clubRunning.state.status = ClubStatus.running ∧
    processCommand clubRunning (CommandBody.SET_PRESET presetPayload23) 2000 ≠ clubRunning := by
  refine ⟨?_, by decide, by decide⟩
  exact Reachable.step _ 1000 (Reachable.step _ 0 (Reachable.init DEFAULT_CONFIG))

/-- C2 as amended: the status after any command is one of the four defined
values; START outside armed/stopped and STOP outside running are no-ops, and
RESET from a reachable idle state is a no-op in effect; but SET_PRESET is
applied in every status (always producing armed), so the unlisted pairs
(running, SET_PRESET) and (stopped, SET_PRESET) do cause transitions. -/
theorem command_processing_total :
    (∀ (club : Club) (cmd : CommandBody) (now : Int),
      (processCommand club cmd now).state.status = ClubStatus.idle ∨
      (processCommand club cmd now).state.status = ClubStatus.armed ∨
      (processCommand club cmd now).state.status = ClubStatus.running ∨
      (processCommand club cmd now).state.status = ClubStatus.stopped) ∧
    (∀ (club : Club) (now : Int),
      club.state.status ≠ ClubStatus.armed → club.state.status ≠ ClubStatus.stopped →
      processCommand club CommandBody.START now = club) ∧
    (∀ (club : Club) (now : Int), club.state.status ≠ ClubStatus.running →
      processCommand club CommandBody.STOP now = club) ∧
    (∀ (club : Club) (now : Int), Reachable club → club.state.status = ClubStatus.idle →
      processCommand club CommandBody.RESET now = club) ∧
    (∀ (club : Club) (payload : SetPresetPayload) (now : Int),
      (processCommand club (CommandBody.SET_PRESET payload) now).state.status = ClubStatus.armed) := by
  refine ⟨?_, ?_, ?_, ?_, ?_⟩
  · intro club cmd now
    cases h : (processCommand club cmd now).state.status <;> simp
  · intro club now h1 h2
    simp only [processCommand]
    rw [if_neg]
    rw [not_or]
    exact ⟨h1, h2⟩
  · intro club now h
    simp only [processCommand]
    rw [if_neg h]
  · intro club now hr hidle
    obtain ⟨hseq, hini⟩ := reachable_idle_initial hr
    have hst : club.state = INITIAL_CLUB_STATE := hini hidle
    obtain ⟨config, state⟩ := club
    simp only at hst
    subst hst
    rfl
  · intro club payload now
    rfl

/-- Witness for C2: the no-op and totality clauses applied to concrete
reachable clubs. -/
theorem command_processing_total_witness :
    processCommand freshClub CommandBody.START 5 = freshClub ∧
    processCommand freshClub CommandBody.STOP 5 = freshClub ∧
    processCommand freshClub CommandBody.RESET 5 = freshClub := by
  refine ⟨?_, ?_, ?_⟩
  · exact command_processing_total.2.1 freshClub 5 (by decide) (by decide)
  · exact command_processing_total.2.2.1 freshClub 5 (by decide)
  · exact command_processing_total.2.2.2.1 freshClub 5 (Reachable.init DEFAULT_CONFIG) (by decide)

/-- A command stamped at sentAtMs 1. -/
def cmdAt1 : CommandWithId :=
  { id := "cmd-a", body := CommandBody.START, sentAtMs := 1, clientId := "ctrl-1" }

/-- A command stamped at sentAtMs 3. -/
def cmdAt3 : CommandWithId :=
  { id := "cmd-b", body := CommandBody.STOP, sentAtMs := 3, clientId := "ctrl-1" }

/-- A command stamped at sentAtMs 5. -/
def cmdAt5 : CommandWithId :=
  { id := "cmd-c", body := CommandBody.RESET, sentAtMs := 5, clientId := "ctrl-2" }

/-- C3: the order in which a snapshot is handed to the processor is a
permutation of the pending batch sorted by ascending `sentAtMs` with the
document id as stable tiebreak; the processing fold follows exactly that
order; and a batch stamped [5, 1, 3] delivered unordered is applied in the
order 1, 3, 5. -/
theorem commands_applied_in_sentAtMs_order :
    (∀ cmds : List CommandWithId,
      List.Perm (sortCommands cmds) cmds ∧ List.Sorted cmdLe (sortCommands cmds)) ∧
    (∀ (ps : ProcessorState) (cmds : List CommandWithId) (now : Int),
      deliverBatch ps cmds now =
        (sortCommands cmds).foldl (fun a c => deliverOne a c now) ps) ∧
    (sortCommands [cmdAt5, cmdAt1, cmdAt3]).map CommandWithId.sentAtMs = [1, 3, 5] := by
  refine ⟨?_, fun ps cmds now => rfl, ?_⟩
  · intro cmds
    exact ⟨List.perm_insertionSort cmdLe cmds, List.sorted_insertionSort cmdLe cmds⟩
  · decide

/-- C8: the `processedCommandIds` guard makes redelivery idempotent —
delivering the same command (same id) a second time, at any later wall time,
leaves the processor state exactly as after the first delivery. -/
theorem command_redelivery_idempotent :
    ∀ (ps : ProcessorState) (c : CommandWithId) (now₁ now₂ : Int),
      deliverOne (deliverOne ps c now₁) c now₂ = deliverOne ps c now₁ := by
  intro ps c now₁ now₂
  by_cases h : c.id ∈ ps.processed
  · simp [deliverOne, h]
  · simp [deliverOne, h]

/-- C9: a START command processed while the session is idle leaves the club
document (config and every field of the state) unchanged; in the processor
loop its only effect is command-queue bookkeeping. -/
theorem start_while_idle_no_op :
    (∀ (club : Club) (now : Int), club.state.status = ClubStatus.idle →
      processCommand club CommandBody.START now = club) ∧
    (∀ (ps : ProcessorState) (c : CommandWithId) (now : Int),
      c.body = CommandBody.START → ps.club.state.status = ClubStatus.idle →
      (deliverOne ps c now).club = ps.club) := by
  have hpure : ∀ (club : Club) (now : Int), club.state.status = ClubStatus.idle →
      processCommand club CommandBody.START now = club := by
    intro club now h
    simp [processCommand, h]
  refine ⟨hpure, ?_⟩
  intro ps c now hbody hst
  have hno : processCommand ps.club c.body now = ps.club := by
    rw [hbody]
    exact hpure ps.club now hst
  unfold deliverOne
  split_ifs
  · rfl
  · simp [hno]

/-- Witness for C9: START delivered to a fresh idle club changes neither the
pure transition result nor the club mirror of the processor. -/
theorem start_while_idle_no_op_witness :
    processCommand freshClub CommandBody.START 7 = freshClub ∧
    (deliverOne
        { club := freshClub, processed := [], pending := [] }
        { id := "w9", body := CommandBody.START, sentAtMs := 0, clientId := "ctrl-9" }
        7).club = freshClub := by
  refine ⟨start_while_idle_no_op.1 freshClub 7 (by decide), ?_⟩
  exact start_while_idle_no_op.2
    { club := freshClub, processed := [], pending := [] }
    { id := "w9", body := CommandBody.START, sentAtMs := 0, clientId := "ctrl-9" }
    7 rfl (by decide)

/-- Counterexample to C4: a SET_PRESET command whose payload has the wrong
shape (numeric presetId; string, boolean and null thresholds) is not dropped
— processing it changes the stored session state. -/
theorem malformed_payload_changes_state :
    processSetPresetDyn malformedSetPreset initialDynState ≠ initialDynState := by
  decide

/-- C4 as amended: the processor performs no payload validation — the
SET_PRESET branch casts blindly and merges the raw payload property reads
(undefined when absent) into the session state, setting status to armed, for
well-shaped and malformed payloads alike; in particular the wrong-typed
payload above lands the string "abc" in `lowerSec`. -/
theorem malformed_payload_applied_verbatim :
    (∀ (payload : List (String × JsValue)) (st : DynClubState),
      (processSetPresetDyn payload st).status = JsValue.str "armed" ∧
      (processSetPresetDyn payload st).presetId = jsField payload "presetId" ∧
      (processSetPresetDyn payload st).lowerSec = jsField payload "lowerSec" ∧
      (processSetPresetDyn payload st).midSec = jsField payload "midSec" ∧
      (processSetPresetDyn payload st).upperSec = jsField payload "upperSec") ∧
    (processSetPresetDyn malformedSetPreset initialDynState).lowerSec = JsValue.str "abc" := by
  exact ⟨fun payload st => ⟨rfl, rfl, rfl, rfl, rfl⟩, by decide⟩

end TMTimer
